import Mathlib

/-!
# Verification of the contacts address-book API (crud.py / main.py / security.py)

Shallow embedding of the repository's data model and request handlers.
The SQLAlchemy session is modelled as an explicit database state `DB`
(a list of users and a list of contacts); `query(...).filter(...).first()`
becomes `List.find?`, `filter(...).all()` becomes `List.filter`,
`offset(skip).limit(limit)` becomes `drop`/`take`, in-place mutation of
the ORM object found by `first()` becomes replacing the first matching
list element, and `db.delete` becomes removing the first matching element.
External effects (bcrypt hashing via passlib, JWT signing via jose,
the random generator behind `random.choices`, the Cloudinary upload URL,
the current date/time) are passed in as explicit function or value
parameters.  Endpoints that can raise `HTTPException` return an `Except`
value paired with the (possibly unchanged) database state.
-/

set_option autoImplicit false

namespace ContactsAPI

/-- `fastapi.HTTPException`: a status code and a detail string. -/
structure HTTPException where
  status_code : Nat
  detail : String
deriving Repr, DecidableEq

/-- An outbound e-mail, as built by `email_verif.send_verification_email`. -/
structure EmailMessage where
  recipient : String
  subject : String
  body : String
deriving Repr, DecidableEq

/-- `models.Contact`: one row of the `contacts` table.  `birthday` is a
calendar date represented as an ordinal day number (an integer). -/
structure Contact where
  id : Nat
  first_name : String
  last_name : String
  email : String
  phone_number : String
  birthday : Int
  additional_info : Option String
  owner_id : Nat
deriving Repr, DecidableEq

/-- `models.User`: one row of the `users` table.  These are exactly the
mapped columns; in particular there is no `avatar_url` column. -/
structure User where
  id : Nat
  email : String
  hashed_password : String
  is_active : Bool
  is_verified : Bool
  verification_code : Option String
deriving Repr, DecidableEq

/-- The database state seen through the SQLAlchemy session. -/
structure DB where
  users : List User
  contacts : List Contact
deriving Repr, DecidableEq

/-- `schemas.UserCreate`: the registration request body. -/
structure UserCreate where
  email : String
  password : String
deriving Repr, DecidableEq

/-- `schemas.ContactCreate`: the request body for creating a contact
(all fields validated, `additional_info` optional). -/
structure ContactCreate where
  first_name : String
  last_name : String
  email : String
  phone_number : String
  birthday : Int
  additional_info : Option String
deriving Repr, DecidableEq

/-- `schemas.ContactUpdate`: the PUT body.  The required fields are always
present after validation; `additional_info` has a default, so it may be
absent from the request, which `contact.dict(exclude_unset=True)` then
omits — `additional_info_set` records whether it was provided. -/
structure ContactUpdate where
  first_name : String
  last_name : String
  email : String
  phone_number : String
  birthday : Int
  additional_info_set : Bool
  additional_info : Option String
deriving Repr, DecidableEq

/-- `security.TokenData`. -/
structure TokenData where
  email : Option String
deriving Repr, DecidableEq

/-- The claim set carried by the JWTs this code builds: a `sub` claim
(absent when the dict had none) and an `exp` timestamp in seconds. -/
structure JWTPayload where
  sub : Option String
  exp : Nat
deriving Repr, DecidableEq

/-- A JWT as produced by `jose.jwt.encode`: its payload together with the
signature computed from the signing key and the payload. -/
structure JWT where
  payload : JWTPayload
  signature : Nat
deriving Repr, DecidableEq

/-- `schemas.Token`: the login response. -/
structure TokenResponse where
  access_token : JWT
  token_type : String
deriving Repr, DecidableEq

/-! ## List helpers modelling in-place ORM mutation -/

/-- Apply `f` to the first element satisfying `p`, leaving the rest of the
list unchanged: this is what `setattr` on the object returned by
`.filter(...).first()` followed by `commit` does to the table. -/
def mapFirst {α : Type} (p : α → Bool) (f : α → α) : List α → List α
  | [] => []
  | x :: xs => if p x then f x :: xs else x :: mapFirst p f xs

/-- Remove the first element satisfying `p`: `db.delete` on the object
returned by `.filter(...).first()`. -/
def removeFirst {α : Type} (p : α → Bool) : List α → List α
  | [] => []
  | x :: xs => if p x then xs else x :: removeFirst p xs

/-! ## crud.py -/

/-- The character population of `crud.code_generation`:
`string.ascii_uppercase + string.digits`. -/
def codeAlphabet : List Char := "ABCDEFGHIJKLMNOPQRSTUVWXYZ0123456789".toList

/-- `crud.code_generation`: `random.choices` drawing `length` elements from
`codeAlphabet`; the random generator is modelled by `picks`, giving the
index drawn at each position (reduced modulo the population size). -/
def code_generation (picks : Nat → Nat) (length : Nat) : String :=
  String.mk ((List.range length).map
    (fun i => codeAlphabet.getD (picks i % codeAlphabet.length) 'A'))

/-- `email_verif.send_verification_email`: the message it hands to SMTP. -/
def send_verification_email (email : String) (verification_code : String) :
    EmailMessage :=
  { recipient := email
    subject := "Verification Code"
    body := "Your verification code is: " ++ verification_code }

/-- `crud.get_contacts`. -/
def get_contacts (db : DB) (skip lim : Nat) : List Contact :=
  (db.contacts.drop skip).take lim

/-- `crud.get_user_contacts`. -/
def get_user_contacts (db : DB) (user_id : Nat) (skip lim : Nat) : List Contact :=
  ((db.contacts.filter (fun c => c.owner_id == user_id)).drop skip).take lim

/-- The filter predicate of `crud.get_contact`:
`Contact.id == contact_id, Contact.owner_id == user_id`. -/
def contactMatches (contact_id user_id : Nat) (c : Contact) : Bool :=
  c.id == contact_id && c.owner_id == user_id

/-- `crud.get_contact`. -/
def get_contact (db : DB) (contact_id user_id : Nat) : Option Contact :=
  db.contacts.find? (contactMatches contact_id user_id)

/-- The `setattr` loop of `crud.update_contact` applied to one contact:
every field present in `contact.dict(exclude_unset=True)` is overwritten. -/
def applyUpdate (u : ContactUpdate) (c : Contact) : Contact :=
  { c with
    first_name := u.first_name
    last_name := u.last_name
    email := u.email
    phone_number := u.phone_number
    birthday := u.birthday
    additional_info :=
      if u.additional_info_set then u.additional_info else c.additional_info }

/-- `crud.update_contact`: returns the new database state and the value the
function returns (`None` when the contact was not found). -/
def update_contact (db : DB) (contact_id : Nat) (contact : ContactUpdate)
    (user_id : Nat) : DB × Option Contact :=
  match get_contact db contact_id user_id with
  | none => (db, none)
  | some c =>
    let contacts2 :=
      mapFirst (contactMatches contact_id user_id) (applyUpdate contact)
        db.contacts
    ({ db with contacts := contacts2 }, some (applyUpdate contact c))

/-- `crud.delete_contact`. -/
def delete_contact (db : DB) (contact_id user_id : Nat) : DB × Option Contact :=
  match get_contact db contact_id user_id with
  | none => (db, none)
  | some c =>
    let contacts2 := removeFirst (contactMatches contact_id user_id) db.contacts
    ({ db with contacts := contacts2 }, some c)

/-- `crud.get_user_by_email`. -/
def get_user_by_email (db : DB) (email : String) : Option User :=
  db.users.find? (fun u => u.email == email)

/-- The primary key the database assigns to a freshly inserted user row. -/
def nextUserId (db : DB) : Nat :=
  (db.users.map User.id).foldr max 0 + 1

/-- `crud.create_contact`: insert a new row owned by `user_id`. -/
def create_contact (db : DB) (contact : ContactCreate) (user_id : Nat)
    (new_id : Nat) : DB × Contact :=
  let new_contact : Contact :=
    { id := new_id
      first_name := contact.first_name
      last_name := contact.last_name
      email := contact.email
      phone_number := contact.phone_number
      birthday := contact.birthday
      additional_info := contact.additional_info
      owner_id := user_id }
  ({ db with contacts := db.contacts ++ [new_contact] }, new_contact)

/-- `crud.create_user`: hash the password (`hash` stands for passlib's
bcrypt `get_password_hash`), generate a verification code, insert the row
(column defaults: `is_active` true, `is_verified` false), and send the
verification e-mail.  Returns the new state, the created user and the
e-mail that was sent. -/
def create_user (hash : String → String) (picks : Nat → Nat) (db : DB)
    (user : UserCreate) : DB × User × EmailMessage :=
  let fake_hashed_password := hash user.password
  let verification_code := code_generation picks 6
  let db_user : User :=
    { id := nextUserId db
      email := user.email
      hashed_password := fake_hashed_password
      is_active := true
      is_verified := false
      verification_code := some verification_code }
  ({ db with users := db.users ++ [db_user] },
   db_user,
   send_verification_email user.email verification_code)

/-- `crud.get_upcoming_birthdays`: the single date-range filter
`owner_id == user_id, birthday >= today, birthday <= today + days`. -/
def get_upcoming_birthdays (db : DB) (user_id : Nat) (today : Int)
    (days : Nat) : List Contact :=
  db.contacts.filter (fun c =>
    c.owner_id == user_id && today ≤ c.birthday && c.birthday ≤ today + days)

/-- `crud.update_user_avatar`: look the user up by id; when found, upload
the image (the URL the host returns is the parameter `uploaded_url`) and
execute `user.avatar_url = avatar_url`.  `models.User` maps no
`avatar_url` column, so that assignment only creates a transient,
unmapped attribute on the ORM instance: `db.commit()` flushes no change
for it and the database state is returned unchanged.  The returned pair
is the instance as the handler sees it — its stored row (unchanged)
together with the transient `avatar_url` value. -/
def update_user_avatar (db : DB) (user_id : Nat) (uploaded_url : String) :
    DB × Option (User × String) :=
  match db.users.find? (fun u => u.id == user_id) with
  | none => (db, none)
  | some u => (db, some (u, uploaded_url))

/-! ## security.py -/

/-- `security.SECRET_KEY`. -/
def SECRET_KEY : String := "Bjgji6930"

/-- `security.ACCESS_TOKEN_EXPIRE_MINUTES`. -/
def ACCESS_TOKEN_EXPIRE_MINUTES : Nat := 30

/-- `jose.jwt.encode(to_encode, key, algorithm)`: attach the HS256
signature; the MAC itself is the parameter `sign`. -/
def jwtEncode (sign : String → JWTPayload → Nat) (to_encode : JWTPayload)
    (key : String) : JWT :=
  { payload := to_encode, signature := sign key to_encode }

/-- `jose.jwt.decode(token, key, algorithms)`: reject a token whose
signature does not verify under `key`, reject an expired token
(`exp` strictly in the past, with zero leeway), otherwise return the
payload.  An error is jose's `JWTError`. -/
def jwtDecode (sign : String → JWTPayload → Nat) (token : JWT) (key : String)
    (now : Nat) : Except Unit JWTPayload :=
  if token.signature ≠ sign key token.payload then Except.error ()
  else if token.payload.exp < now then Except.error ()
  else Except.ok token.payload

/-- `security.create_access_token`: copy the data, set `exp` to now plus
the given delta (15 minutes when absent), and encode under `SECRET_KEY`.
`now` and the delta are in seconds. -/
def create_access_token (sign : String → JWTPayload → Nat) (sub : Option String)
    (now : Nat) (expires_delta : Option Nat) : JWT :=
  let expire :=
    match expires_delta with
    | some d => now + d
    | none => now + 15 * 60
  jwtEncode sign { sub := sub, exp := expire } SECRET_KEY

/-- `security.verify_token`: decode under `SECRET_KEY`; raise the supplied
credentials exception (modelled as the `Except.error` branch) on a
`JWTError` or a missing `sub` claim, else return `TokenData(email)`. -/
def verify_token (sign : String → JWTPayload → Nat) (token : JWT) (now : Nat) :
    Except Unit TokenData :=
  match jwtDecode sign token SECRET_KEY now with
  | Except.error _ => Except.error ()
  | Except.ok payload =>
    match payload.sub with
    | none => Except.error ()
    | some email => Except.ok { email := some email }

/-- `security.authenticate_user`: look the user up by e-mail and check the
password against the stored hash; `verify` is passlib's
`verify_password(plain, hashed)`.  `none` models the `False` return. -/
def authenticate_user (verify : String → String → Bool) (db : DB)
    (email password : String) : Option User :=
  match db.users.find? (fun u => u.email == email) with
  | none => none
  | some user => if verify password user.hashed_password then some user else none

/-! ## main.py endpoints -/

/-- `POST /users/{user_id}/avatar` (`main.update_avatar`): 403 when the
path id is not the authenticated user's id, otherwise delegate to
`crud.update_user_avatar`. -/
def ep_update_avatar (db : DB) (user_id : Nat) (uploaded_url : String)
    (current_user : User) : DB × Except HTTPException (Option (User × String)) :=
  if user_id ≠ current_user.id then
    (db, Except.error ⟨403, "Not authorized to update this user's avatar"⟩)
  else
    let r := update_user_avatar db user_id uploaded_url
    (r.1, Except.ok r.2)

/-- The filter of `main.verify_email`:
`User.verification_code == verification_code` (a SQL comparison with a
NULL column is not a match). -/
def codeMatches (verification_code : String) (u : User) : Bool :=
  u.verification_code == some verification_code

/-- The two assignments of `main.verify_email`:
`user.is_verified = True; user.verification_code = None`. -/
def markVerified (u : User) : User :=
  { u with is_verified := true, verification_code := none }

/-- `GET /verify/{verification_code}` (`main.verify_email`): 404 when no
user carries the code; otherwise mark the first matching user verified,
clear their code, commit, and return the success message. -/
def ep_verify_email (db : DB) (verification_code : String) :
    DB × Except HTTPException String :=
  match db.users.find? (codeMatches verification_code) with
  | none => (db, Except.error ⟨404, "User not found"⟩)
  | some _ =>
    let users2 :=
      mapFirst (codeMatches verification_code) markVerified db.users
    ({ db with users := users2 }, Except.ok "Email successfully verified")

/-- `POST /users/` (`main.create_user`): 409 when a user with the e-mail
exists, otherwise delegate to `crud.create_user`.  The `ok` branch carries
the created user and the verification e-mail that was sent. -/
def ep_create_user (hash : String → String) (picks : Nat → Nat) (db : DB)
    (user : UserCreate) : DB × Except HTTPException (User × EmailMessage) :=
  match get_user_by_email db user.email with
  | some _ => (db, Except.error ⟨409, "Email already registered"⟩)
  | none =>
    let r := create_user hash picks db user
    (r.1, Except.ok r.2)

/-- `POST /token` (`main.login_for_access_token`): 401 when
`authenticate_user` fails, otherwise a bearer token for the user's e-mail
expiring `ACCESS_TOKEN_EXPIRE_MINUTES` after `now`. -/
def ep_login_for_access_token (sign : String → JWTPayload → Nat)
    (verify : String → String → Bool) (db : DB) (username password : String)
    (now : Nat) : Except HTTPException TokenResponse :=
  match authenticate_user verify db username password with
  | none => Except.error ⟨401, "Incorrect username or password"⟩
  | some user =>
    Except.ok
      { access_token :=
          create_access_token sign (some user.email) now
            (some (ACCESS_TOKEN_EXPIRE_MINUTES * 60))
        token_type := "bearer" }

/-- `POST /contacts/` (`main.create_contact`). -/
def ep_create_contact (db : DB) (contact : ContactCreate) (current_user : User)
    (new_id : Nat) : DB × Contact :=
  create_contact db contact current_user.id new_id

/-- `GET /contacts/` (`main.read_contacts`). -/
def ep_read_contacts (db : DB) (skip lim : Nat) (current_user : User) :
    List Contact :=
  get_user_contacts db current_user.id skip lim

/-- `GET /contacts/{contact_id}` (`main.read_contact`): 404 when the
contact is missing or owned by someone else. -/
def ep_read_contact (db : DB) (contact_id : Nat) (current_user : User) :
    Except HTTPException Contact :=
  match get_contact db contact_id current_user.id with
  | none => Except.error ⟨404, "Contact not found"⟩
  | some c => Except.ok c

/-- `PUT /contacts/{contact_id}` (`main.update_contact`): no 404
translation, the crud return value is passed through. -/
def ep_update_contact (db : DB) (contact_id : Nat) (contact : ContactUpdate)
    (current_user : User) : DB × Option Contact :=
  update_contact db contact_id contact current_user.id

/-- `DELETE /contacts/{contact_id}` (`main.delete_contact`): no 404
translation, the crud return value is passed through. -/
def ep_delete_contact (db : DB) (contact_id : Nat) (current_user : User) :
    DB × Option Contact :=
  delete_contact db contact_id current_user.id

/-- `GET /contacts/upcoming_birthdays/` (`main.get_upcoming_birthdays`):
delegates with the default window `days = 7`. -/
def ep_get_upcoming_birthdays (db : DB) (current_user : User) (today : Int) :
    List Contact :=
  get_upcoming_birthdays db current_user.id today 7

/-! ## Database-operation traces of the handlers

For the pass-through claim, each handler's interaction with the ORM is
recorded as a trace: every executed `db.query(...).first()` / `.all()`
and every `db.refresh(...)` is a `query`, every `db.commit()` (the flush
of pending inserts, updates and deletes) is a `mutation`.  The traces
follow each handler's control flow exactly. -/

/-- One ORM operation against the database. -/
inductive DBOp where
  | query : DBOp
  | mutation : DBOp
deriving Repr, DecidableEq

/-- Trace of `main.update_avatar`: nothing when the 403 is raised first;
otherwise the user lookup, and — when the user exists — the commit and
the refresh. -/
def ops_ep_update_avatar (db : DB) (user_id : Nat) (current_user : User) :
    List DBOp :=
  if user_id ≠ current_user.id then []
  else
    match db.users.find? (fun u => u.id == user_id) with
    | none => [DBOp.query]
    | some _ => [DBOp.query, DBOp.mutation, DBOp.query]

/-- Trace of `main.verify_email`: the user lookup, then the commit when a
user matched. -/
def ops_ep_verify_email (db : DB) (verification_code : String) : List DBOp :=
  match db.users.find? (codeMatches verification_code) with
  | none => [DBOp.query]
  | some _ => [DBOp.query, DBOp.mutation]

/-- Trace of `main.create_user`: the e-mail lookup, then — when the e-mail
is free — the insert commit and the refresh of `crud.create_user`. -/
def ops_ep_create_user (db : DB) (user : UserCreate) : List DBOp :=
  match get_user_by_email db user.email with
  | some _ => [DBOp.query]
  | none => [DBOp.query, DBOp.mutation, DBOp.query]

/-- Trace of `main.login_for_access_token`: the single user lookup of
`authenticate_user`. -/
def ops_ep_login (db : DB) (username : String) : List DBOp :=
  [DBOp.query]

/-- Trace of `main.create_contact`: the insert commit and the refresh of
`crud.create_contact`. -/
def ops_ep_create_contact : List DBOp :=
  [DBOp.mutation, DBOp.query]

/-- Trace of `main.read_contacts`: one query. -/
def ops_ep_read_contacts : List DBOp :=
  [DBOp.query]

/-- Trace of `main.read_contact`: one query. -/
def ops_ep_read_contact : List DBOp :=
  [DBOp.query]

/-- Trace of `main.update_contact`: the `get_contact` lookup, then — when
the contact was found — the commit and the refresh. -/
def ops_ep_update_contact (db : DB) (contact_id user_id : Nat) : List DBOp :=
  match get_contact db contact_id user_id with
  | none => [DBOp.query]
  | some _ => [DBOp.query, DBOp.mutation, DBOp.query]

/-- Trace of `main.delete_contact`: the `get_contact` lookup, then the
commit when the contact was found. -/
def ops_ep_delete_contact (db : DB) (contact_id user_id : Nat) : List DBOp :=
  match get_contact db contact_id user_id with
  | none => [DBOp.query]
  | some _ => [DBOp.query, DBOp.mutation]

/-- Trace of `main.get_upcoming_birthdays`: one query. -/
def ops_ep_upcoming_birthdays : List DBOp :=
  [DBOp.query]

/-! ## Concrete fixtures -/

/-- A user holding the verification code `"ABC123"`. -/
def alice : User :=
  { id := 1
    email := "alice@example.com"
    hashed_password := "hashA"
    is_active := true
    is_verified := false
    verification_code := some "ABC123" }

/-- An already verified user with no pending code. -/
def bob : User :=
  { id := 2
    email := "bob@example.com"
    hashed_password := "hashB"
    is_active := true
    is_verified := true
    verification_code := none }

/-- A contact owned by `alice`. -/
def contactA : Contact :=
  { id := 1
    first_name := "Carl"
    last_name := "Ng"
    email := "carl@example.com"
    phone_number := "111"
    birthday := 10
    additional_info := none
    owner_id := 1 }

/-- A contact owned by `bob`. -/
def contactB : Contact :=
  { id := 2
    first_name := "Dana"
    last_name := "Wu"
    email := "dana@example.com"
    phone_number := "222"
    birthday := 20
    additional_info := some "friend"
    owner_id := 2 }

/-- A small concrete database state. -/
def exampleDB : DB :=
  { users := [alice, bob], contacts := [contactA, contactB] }

/-- `exampleDB` after `alice` verified her e-mail. -/
def exampleDBverified : DB :=
  { users := [{ alice with is_verified := true, verification_code := none }, bob]
    contacts := [contactA, contactB] }

/-- A concrete PUT body. -/
def exUpdate : ContactUpdate :=
  { first_name := "Ann"
    last_name := "Lee"
    email := "ann@example.com"
    phone_number := "555"
    birthday := 700
    additional_info_set := false
    additional_info := none }

/-- A stand-in for passlib's bcrypt hash in witnesses. -/
def exHash (s : String) : String := String.append "$2b$12$" s

/-- A stand-in random stream in witnesses. -/
def exPicks (i : Nat) : Nat := i

/-- A stand-in HS256 MAC in witnesses. -/
def exSign (key : String) (p : JWTPayload) : Nat := key.length + p.exp

/-- A stand-in password check in witnesses, matching the fixtures' stored
hashes (`"hash" ++ plain`). -/
def exVerify (plain hashed : String) : Bool :=
  hashed == String.append "hash" plain

/-! ## Helper lemmas -/

theorem find?_append_cons {α : Type} (p : α → Bool) (l1 l2 : List α) (u : α)
    (h1 : ∀ x ∈ l1, p x = false) (hu : p u = true) :
    (l1 ++ u :: l2).find? p = some u := by
  induction l1 with
  | nil => simp [List.find?_cons_of_pos _ hu]
  | cons a l ih =>
    have ha : p a = false := h1 a (by simp)
    rw [List.cons_append, List.find?_cons_of_neg _ (by simp [ha])]
    exact ih (fun x hx => h1 x (by simp [hx]))

theorem mapFirst_append {α : Type} (p : α → Bool) (f : α → α) (l1 l2 : List α)
    (u : α) (h1 : ∀ x ∈ l1, p x = false) (hu : p u = true) :
    mapFirst p f (l1 ++ u :: l2) = l1 ++ f u :: l2 := by
  induction l1 with
  | nil => simp [mapFirst, hu]
  | cons a l ih =>
    have ha : p a = false := h1 a (by simp)
    simp only [List.cons_append, mapFirst, ha, Bool.false_eq_true, if_false]
    exact congrArg (List.cons a) (ih (fun x hx => h1 x (by simp [hx])))

theorem removeFirst_append {α : Type} (p : α → Bool) (l1 l2 : List α) (u : α)
    (h1 : ∀ x ∈ l1, p x = false) (hu : p u = true) :
    removeFirst p (l1 ++ u :: l2) = l1 ++ l2 := by
  induction l1 with
  | nil => simp [removeFirst, hu]
  | cons a l ih =>
    have ha : p a = false := h1 a (by simp)
    simp only [List.cons_append, removeFirst, ha, Bool.false_eq_true, if_false]
    exact congrArg (List.cons a) (ih (fun x hx => h1 x (by simp [hx])))

theorem filter_mapFirst {α : Type} (p : α → Bool) (f : α → α) (q : α → Bool)
    (l : List α) (hq : ∀ x, p x = true → q x = false)
    (hqf : ∀ x, p x = true → q (f x) = false) :
    (mapFirst p f l).filter q = l.filter q := by
  induction l with
  | nil => rfl
  | cons a l ih =>
    cases hpa : p a with
    | true =>
      simp only [mapFirst, hpa, if_true]
      rw [List.filter_cons, List.filter_cons, hq a hpa, hqf a hpa]
      simp
    | false =>
      simp only [mapFirst, hpa, Bool.false_eq_true, if_false]
      rw [List.filter_cons, List.filter_cons, ih]

theorem filter_removeFirst {α : Type} (p : α → Bool) (q : α → Bool)
    (l : List α) (hq : ∀ x, p x = true → q x = false) :
    (removeFirst p l).filter q = l.filter q := by
  induction l with
  | nil => rfl
  | cons a l ih =>
    cases hpa : p a with
    | true =>
      simp only [removeFirst, hpa, if_true]
      rw [List.filter_cons, hq a hpa]
      simp
    | false =>
      simp only [removeFirst, hpa, Bool.false_eq_true, if_false]
      rw [List.filter_cons, List.filter_cons, ih]

theorem find?_mapFirst_none {α : Type} (p : α → Bool) (f : α → α) (l : List α)
    (hc : l.countP p ≤ 1) (hf : ∀ x, p x = true → p (f x) = false) :
    (mapFirst p f l).find? p = none := by
  induction l with
  | nil => rfl
  | cons a l ih =>
    cases hpa : p a with
    | true =>
      simp only [mapFirst, hpa, if_true]
      rw [List.find?_cons_of_neg _ (by simp [hf a hpa])]
      have hzero : l.countP p = 0 := by
        rw [List.countP_cons, hpa] at hc
        simp only [reduceIte] at hc
        omega
      rw [List.find?_eq_none]
      intro x hx hpx
      have : 0 < l.countP p := List.countP_pos_iff.mpr ⟨x, hx, hpx⟩
      omega
    | false =>
      simp only [mapFirst, hpa, Bool.false_eq_true, if_false]
      rw [List.find?_cons_of_neg _ (by simp [hpa])]
      apply ih
      rw [List.countP_cons, hpa] at hc
      simp only [Bool.false_eq_true, if_false] at hc
      omega

theorem contactMatches_owner {contact_id user_id : Nat} {c : Contact}
    (h : contactMatches contact_id user_id c = true) : c.owner_id = user_id := by
  simp only [contactMatches, Bool.and_eq_true, beq_iff_eq] at h
  exact h.2

theorem applyUpdate_owner (u : ContactUpdate) (c : Contact) :
    (applyUpdate u c).owner_id = c.owner_id := rfl

/-! ## Claims -/

/-- C1: the upcoming-birthdays query (with default `days = 7` at the
endpoint) returns exactly the contacts owned by the user whose birthday
satisfies the single date-range comparison
`today <= birthday <= today + days`. -/
theorem upcoming_birthdays_exact (db : DB) (u : User) (today : Int)
    (user_id : Nat) (days : Nat) :
    (∀ c : Contact, c ∈ get_upcoming_birthdays db user_id today days ↔
        c ∈ db.contacts ∧ c.owner_id = user_id ∧
          today ≤ c.birthday ∧ c.birthday ≤ today + days)
    ∧ ep_get_upcoming_birthdays db u today =
        get_upcoming_birthdays db u.id today 7 := by
  constructor
  · intro c
    simp [get_upcoming_birthdays, List.mem_filter, Bool.and_eq_true,
      beq_iff_eq, decide_eq_true_eq, and_assoc]
  · rfl

/-- C2: contact records are per-user — the single-contact read, the list,
the update and the delete only ever return a contact owned by the given
user, and update/delete leave every contact of any other owner (and the
whole `users` table) unchanged. -/
theorem contacts_are_per_user (db : DB) (contact_id user_id skip lim : Nat)
    (upd : ContactUpdate) :
    (∀ c : Contact, get_contact db contact_id user_id = some c →
        c.owner_id = user_id)
    ∧ (∀ c ∈ get_user_contacts db user_id skip lim, c.owner_id = user_id)
    ∧ (∀ c : Contact, (update_contact db contact_id upd user_id).2 = some c →
        c.owner_id = user_id)
    ∧ (update_contact db contact_id upd user_id).1.contacts.filter
          (fun c => !(c.owner_id == user_id)) =
        db.contacts.filter (fun c => !(c.owner_id == user_id))
    ∧ (update_contact db contact_id upd user_id).1.users = db.users
    ∧ (∀ c : Contact, (delete_contact db contact_id user_id).2 = some c →
        c.owner_id = user_id)
    ∧ (delete_contact db contact_id user_id).1.contacts.filter
          (fun c => !(c.owner_id == user_id)) =
        db.contacts.filter (fun c => !(c.owner_id == user_id))
    ∧ (delete_contact db contact_id user_id).1.users = db.users := by
  refine ⟨?_, ?_, ?_, ?_, ?_, ?_, ?_, ?_⟩
  · intro c h
    exact contactMatches_owner (List.find?_some h)
  · intro c hc
    have hmem : c ∈ db.contacts.filter (fun x => x.owner_id == user_id) :=
      List.mem_of_mem_drop (List.mem_of_mem_take hc)
    have := (List.mem_filter.mp hmem).2
    simpa [beq_iff_eq] using this
  · intro c h
    cases hg : get_contact db contact_id user_id with
    | none => simp [update_contact, hg] at h
    | some c0 =>
      simp only [update_contact, hg] at h
      cases h
      rw [applyUpdate_owner]
      exact contactMatches_owner (List.find?_some hg)
  · cases hg : get_contact db contact_id user_id with
    | none => simp [update_contact, hg]
    | some c0 =>
      simp only [update_contact, hg]
      exact filter_mapFirst _ _ _ _
        (fun x hpx => by simp [contactMatches_owner hpx])
        (fun x hpx => by simp [applyUpdate_owner, contactMatches_owner hpx])
  · cases hg : get_contact db contact_id user_id with
    | none => simp [update_contact, hg]
    | some c0 => simp [update_contact, hg]
  · intro c h
    cases hg : get_contact db contact_id user_id with
    | none => simp [delete_contact, hg] at h
    | some c0 =>
      simp only [delete_contact, hg] at h
      cases h
      exact contactMatches_owner (List.find?_some hg)
  · cases hg : get_contact db contact_id user_id with
    | none => simp [delete_contact, hg]
    | some c0 =>
      simp only [delete_contact, hg]
      exact filter_removeFirst _ _ _
        (fun x hpx => by simp [contactMatches_owner hpx])
  · cases hg : get_contact db contact_id user_id with
    | none => simp [delete_contact, hg]
    | some c0 => simp [delete_contact, hg]

theorem contacts_are_per_user_witness : contactA.owner_id = 1 :=
  (contacts_are_per_user exampleDB 1 1 0 100 exUpdate).1 contactA rfl

/-- C9: when no contact with the given id is owned by the user, the
update and delete operations return `None` and leave the database
unchanged, and only the single-contact read endpoint turns the missing
contact into HTTP 404. -/
theorem missing_contact_is_none (db : DB) (contact_id : Nat)
    (upd : ContactUpdate) (cu : User)
    (h : ∀ c ∈ db.contacts, ¬(c.id = contact_id ∧ c.owner_id = cu.id)) :
    ep_update_contact db contact_id upd cu = (db, none)
    ∧ ep_delete_contact db contact_id cu = (db, none)
    ∧ ep_read_contact db contact_id cu =
        Except.error ⟨404, "Contact not found"⟩ := by
  have hfind : get_contact db contact_id cu.id = none := by
    rw [get_contact, List.find?_eq_none]
    intro x hx hpx
    exact h x hx
      (by simpa [contactMatches, Bool.and_eq_true, beq_iff_eq] using hpx)
  refine ⟨?_, ?_, ?_⟩ <;>
    simp [ep_update_contact, update_contact, ep_delete_contact,
      delete_contact, ep_read_contact, hfind]

theorem missing_contact_is_none_witness :
    ep_update_contact exampleDB 99 exUpdate alice = (exampleDB, none)
    ∧ ep_delete_contact exampleDB 99 alice = (exampleDB, none)
    ∧ ep_read_contact exampleDB 99 alice =
        Except.error ⟨404, "Contact not found"⟩ :=
  missing_contact_is_none exampleDB 99 exUpdate alice (by decide)

/-- C3: e-mail verification — an unknown code yields HTTP 404 with the
database unchanged; a known code marks the (unique, by the column's
uniqueness) matching user verified, clears their code, returns the
success message, and leaves every other user and all contacts unchanged. -/
theorem verify_email_spec (db : DB) (code : String) :
    ((∀ u ∈ db.users, u.verification_code ≠ some code) →
        ep_verify_email db code = (db, Except.error ⟨404, "User not found"⟩))
    ∧ (∀ l1 (u : User) l2, db.users = l1 ++ u :: l2 →
        (∀ v ∈ l1, v.verification_code ≠ some code) →
        u.verification_code = some code →
        ep_verify_email db code =
          ({ users := l1 ++ markVerified u :: l2, contacts := db.contacts },
           Except.ok "Email successfully verified")) := by
  constructor
  · intro hnone
    have hfind : db.users.find? (codeMatches code) = none := by
      rw [List.find?_eq_none]
      intro u hu hcm
      exact hnone u hu (by simpa [codeMatches, beq_iff_eq] using hcm)
    simp [ep_verify_email, hfind]
  · intro l1 u l2 hsplit hl1 hu
    have hcm : codeMatches code u = true := by simp [codeMatches, hu]
    have hl1' : ∀ v ∈ l1, codeMatches code v = false := by
      intro v hv
      simp only [codeMatches, beq_eq_false_iff_ne]
      exact hl1 v hv
    have hfind : db.users.find? (codeMatches code) = some u := by
      rw [hsplit]
      exact find?_append_cons _ _ _ _ hl1' hcm
    simp only [ep_verify_email, hfind]
    rw [hsplit, mapFirst_append _ _ _ _ _ hl1' hcm]

theorem verify_email_spec_witness :
    ep_verify_email exampleDB "ABC123" =
      (exampleDBverified, Except.ok "Email successfully verified") := by
  have h := (verify_email_spec exampleDB "ABC123").2 [] alice [bob] rfl
    (by intro v hv; exact absurd hv (List.not_mem_nil v)) rfl
  exact h

/-- C7: avatar upload — the 403-on-mismatch half of the claim holds, but
the claimed write does not: `models.User` maps no `avatar_url` column, so
the handler's assignment is a transient unmapped instance attribute and
the database is returned unchanged in every branch.  On a matching id
the handler returns the user's stored row unchanged, merely paired with
the transient URL; no stored field of any user or contact ever changes,
contradicting the claim that the user's `avatar_url` field is set. -/
theorem update_avatar_not_persisted (db : DB) (user_id : Nat) (url : String)
    (cu : User) :
    (user_id ≠ cu.id → ep_update_avatar db user_id url cu =
        (db, Except.error ⟨403, "Not authorized to update this user's avatar"⟩))
    ∧ (ep_update_avatar db user_id url cu).1 = db
    ∧ (∀ l1 (u : User) l2, user_id = cu.id → db.users = l1 ++ u :: l2 →
        (∀ v ∈ l1, v.id ≠ user_id) → u.id = user_id →
        ep_update_avatar db user_id url cu = (db, Except.ok (some (u, url)))) := by
  refine ⟨?_, ?_, ?_⟩
  · intro h
    simp [ep_update_avatar, h]
  · by_cases h : user_id ≠ cu.id
    · simp [ep_update_avatar, h]
    · cases hf : db.users.find? (fun u => u.id == user_id) <;>
        simp [ep_update_avatar, h, update_user_avatar, hf]
  · intro l1 u l2 heq hsplit hl1 huid
    have hne : ¬(user_id ≠ cu.id) := by simp [heq]
    have hl1' : ∀ v ∈ l1, (v.id == user_id) = false := by
      intro v hv
      simp only [beq_eq_false_iff_ne]
      exact hl1 v hv
    have hu : (u.id == user_id) = true := by simp [huid]
    have hfind : db.users.find? (fun v => v.id == user_id) = some u := by
      rw [hsplit]
      exact find?_append_cons _ _ _ _ hl1' hu
    simp [ep_update_avatar, if_neg hne, update_user_avatar, hfind]

theorem update_avatar_not_persisted_witness :
    ep_update_avatar exampleDB 2 "http://img.example/a.png" alice =
      (exampleDB,
       Except.error ⟨403, "Not authorized to update this user's avatar"⟩)
    ∧ ep_update_avatar exampleDB 1 "http://img.example/a.png" alice =
      (exampleDB, Except.ok (some (alice, "http://img.example/a.png"))) := by
  constructor
  · exact (update_avatar_not_persisted exampleDB 2 "http://img.example/a.png"
      alice).1 (by decide)
  · exact (update_avatar_not_persisted exampleDB 1 "http://img.example/a.png"
      alice).2.2 [] alice [bob] rfl rfl
      (by intro v hv; exact absurd hv (List.not_mem_nil v)) rfl

/-- C4: registration — an already registered e-mail yields HTTP 409 and
creates nothing; otherwise exactly one user is appended whose stored
password is the bcrypt hash of the submitted one (never the plaintext,
given that the hash differs from its input), whose verification code is a
fresh 6-character string of uppercase letters and digits, whose
`is_verified` flag starts `false`, and the verification e-mail carrying
that code is sent to the submitted address. -/
theorem create_user_spec (hash : String → String) (picks : Nat → Nat)
    (db : DB) (user : UserCreate) :
    ((get_user_by_email db user.email).isSome = true →
        ep_create_user hash picks db user =
          (db, Except.error ⟨409, "Email already registered"⟩))
    ∧ (get_user_by_email db user.email = none →
        ∃ (newUser : User) (msg : EmailMessage) (code : String),
          ep_create_user hash picks db user =
            ({ users := db.users ++ [newUser], contacts := db.contacts },
             Except.ok (newUser, msg))
          ∧ newUser.hashed_password = hash user.password
          ∧ (hash user.password ≠ user.password →
              newUser.hashed_password ≠ user.password)
          ∧ newUser.is_verified = false
          ∧ newUser.verification_code = some code
          ∧ code.length = 6
          ∧ (∀ ch ∈ code.data, ch.isUpper = true ∨ ch.isDigit = true)
          ∧ msg = { recipient := user.email, subject := "Verification Code",
                    body := "Your verification code is: " ++ code }) := by
  constructor
  · intro h
    cases hg : get_user_by_email db user.email with
    | none => rw [hg] at h; simp at h
    | some u => simp [ep_create_user, hg]
  · intro h
    refine ⟨{ id := nextUserId db
              email := user.email
              hashed_password := hash user.password
              is_active := true
              is_verified := false
              verification_code := some (code_generation picks 6) },
      send_verification_email user.email (code_generation picks 6),
      code_generation picks 6, ?_, rfl, fun hne => hne, rfl, rfl, ?_, ?_, rfl⟩
    · simp [ep_create_user, h, create_user]
    · rfl
    · intro ch hch
      have key : ∀ m, m < codeAlphabet.length →
          ((codeAlphabet.getD m 'A').isUpper = true ∨
            (codeAlphabet.getD m 'A').isDigit = true) := by decide
      simp only [code_generation, String.mk] at hch
      obtain ⟨i, _, hi⟩ := List.mem_map.mp hch
      rw [← hi]
      exact key _ (Nat.mod_lt _ (by decide))

theorem create_user_spec_witness :
    ep_create_user exHash exPicks exampleDB
        { email := "alice@example.com", password := "pw" } =
      (exampleDB, Except.error ⟨409, "Email already registered"⟩)
    ∧ ∃ r, (ep_create_user exHash exPicks exampleDB
        { email := "carol@example.com", password := "pw" }).2 = Except.ok r := by
  constructor
  · exact (create_user_spec exHash exPicks exampleDB
      { email := "alice@example.com", password := "pw" }).1 rfl
  · obtain ⟨nu, msg, code, heq, _⟩ := (create_user_spec exHash exPicks exampleDB
      { email := "carol@example.com", password := "pw" }).2 rfl
    exact ⟨(nu, msg), by rw [heq]⟩

/-- C5: login — HTTP 401 exactly when no user has the submitted e-mail or
the password fails verification against the stored hash; otherwise a
bearer token signed with `SECRET_KEY` whose `sub` is the user's e-mail
and whose expiry is `ACCESS_TOKEN_EXPIRE_MINUTES` (30 minutes) after
issuance. -/
theorem login_spec (sign : String → JWTPayload → Nat)
    (verify : String → String → Bool) (db : DB) (username password : String)
    (now : Nat) :
    (ep_login_for_access_token sign verify db username password now =
        Except.error ⟨401, "Incorrect username or password"⟩ ↔
      (∀ u ∈ db.users, u.email ≠ username) ∨
        (∃ u, db.users.find? (fun v => v.email == username) = some u ∧
          verify password u.hashed_password = false))
    ∧ (∀ u, db.users.find? (fun v => v.email == username) = some u →
        verify password u.hashed_password = true →
        ep_login_for_access_token sign verify db username password now =
          Except.ok
            { access_token :=
                { payload :=
                    { sub := some u.email,
                      exp := now + ACCESS_TOKEN_EXPIRE_MINUTES * 60 },
                  signature := sign SECRET_KEY
                    { sub := some u.email,
                      exp := now + ACCESS_TOKEN_EXPIRE_MINUTES * 60 } },
              token_type := "bearer" }) := by
  constructor
  · cases hf : db.users.find? (fun v => v.email == username) with
    | none =>
      constructor
      · intro _
        left
        intro u hu
        have := List.find?_eq_none.mp hf u hu
        simpa [beq_iff_eq] using this
      · intro _
        simp [ep_login_for_access_token, authenticate_user, hf]
    | some u =>
      cases hv : verify password u.hashed_password with
      | true =>
        constructor
        · intro h
          exfalso
          simp [ep_login_for_access_token, authenticate_user, hf, hv] at h
        · intro h
          exfalso
          rcases h with hnone | ⟨u0, hu0, hv0⟩
          · have hmem := List.mem_of_find?_eq_some hf
            have hpu := List.find?_some hf
            exact (hnone u hmem) (by simpa [beq_iff_eq] using hpu)
          · have huu : u = u0 := by injection hu0
            rw [← huu, hv] at hv0
            exact absurd hv0 (by simp)
      | false =>
        constructor
        · intro _
          right
          exact ⟨u, rfl, hv⟩
        · intro _
          simp [ep_login_for_access_token, authenticate_user, hf, hv]
  · intro u hf hv
    simp [ep_login_for_access_token, authenticate_user, hf, hv,
      create_access_token, jwtEncode]

theorem login_spec_witness :
    ep_login_for_access_token exSign exVerify exampleDB "alice@example.com"
        "A" 0 =
      Except.ok
        { access_token :=
            { payload := { sub := some "alice@example.com", exp := 1800 },
              signature := exSign SECRET_KEY
                { sub := some "alice@example.com", exp := 1800 } },
          token_type := "bearer" }
    ∧ ep_login_for_access_token exSign exVerify exampleDB
        "nobody@example.com" "A" 0 =
      Except.error ⟨401, "Incorrect username or password"⟩ := by
  constructor
  · exact (login_spec exSign exVerify exampleDB "alice@example.com" "A" 0).2
      alice rfl rfl
  · exact (login_spec exSign exVerify exampleDB "nobody@example.com" "A" 0).1.mpr
      (Or.inl (by decide))

/-- C6: JWT round-trip — a token built by `create_access_token` with
`sub = email`, checked before its expiry, verifies to `TokenData` holding
that e-mail; and `verify_token` rejects any token whose signature is not
the one `SECRET_KEY` produces for its payload, as well as any validly
formed token lacking a `sub` claim. -/
theorem jwt_roundtrip (sign : String → JWTPayload → Nat) (email : String)
    (now delta t : Nat) :
    (t ≤ now + delta →
        verify_token sign (create_access_token sign (some email) now (some delta)) t =
          Except.ok { email := some email })
    ∧ (∀ token : JWT, token.signature ≠ sign SECRET_KEY token.payload →
        verify_token sign token t = Except.error ())
    ∧ (∀ token : JWT, token.payload.sub = none →
        verify_token sign token t = Except.error ()) := by
  refine ⟨?_, ?_, ?_⟩
  · intro ht
    have hexp : ¬(now + delta < t) := by omega
    simp [verify_token, jwtDecode, create_access_token, jwtEncode, hexp]
  · intro token hsig
    simp [verify_token, jwtDecode, hsig]
  · intro token hsub
    by_cases hsig : token.signature = sign SECRET_KEY token.payload
    · by_cases hexp : token.payload.exp < t
      · simp [verify_token, jwtDecode, hsig, hexp]
      · simp [verify_token, jwtDecode, hsig, hexp, hsub]
    · simp [verify_token, jwtDecode, hsig]

theorem jwt_roundtrip_witness :
    verify_token exSign
        (create_access_token exSign (some "a@b.example") 0 (some 60)) 30 =
      Except.ok { email := some "a@b.example" }
    ∧ verify_token exSign
        { payload := { sub := some "a@b.example", exp := 60 }, signature := 0 }
        30 = Except.error ()
    ∧ verify_token exSign
        { payload := { sub := none, exp := 60 },
          signature := exSign SECRET_KEY { sub := none, exp := 60 } } 30 =
      Except.error () := by
  refine ⟨?_, ?_, ?_⟩
  · exact (jwt_roundtrip exSign "a@b.example" 0 60 30).1 (by decide)
  · exact (jwt_roundtrip exSign "a@b.example" 0 60 30).2.1 _ (by decide)
  · exact (jwt_roundtrip exSign "a@b.example" 0 60 30).2.2 _ rfl

/-- C10: verification codes are single-use — after a successful
verification (with the code unique among users, as the column's
uniqueness constraint guarantees), a second call with the same code hits
HTTP 404 and changes nothing, because the code was cleared to `None`; and
a user whose stored code is `None` is never matched by any code. -/
theorem verification_code_single_use (db db2 : DB) (code msg : String) :
    (db.users.countP (codeMatches code) ≤ 1 →
        ep_verify_email db code = (db2, Except.ok msg) →
        ep_verify_email db2 code =
          (db2, Except.error ⟨404, "User not found"⟩))
    ∧ (∀ u : User, u.verification_code = none → codeMatches code u = false) := by
  constructor
  · intro hcount hfirst
    cases hf : db.users.find? (codeMatches code) with
    | none => simp [ep_verify_email, hf] at hfirst
    | some u =>
      simp only [ep_verify_email, hf] at hfirst
      have hdb2 : db2 =
          { db with users := mapFirst (codeMatches code) markVerified db.users } := by
        have := congrArg Prod.fst hfirst
        exact this.symm
      have hnone : db2.users.find? (codeMatches code) = none := by
        rw [hdb2]
        exact find?_mapFirst_none _ _ _ hcount
          (fun x hx => by simp [codeMatches, markVerified])
      simp [ep_verify_email, hnone]
  · intro u hu
    simp [codeMatches, hu]

theorem verification_code_single_use_witness :
    ep_verify_email exampleDBverified "ABC123" =
      (exampleDBverified, Except.error ⟨404, "User not found"⟩) :=
  (verification_code_single_use exampleDB exampleDBverified "ABC123"
      "Email successfully verified").1 (by decide) rfl

/-- C8 (counterexample): the registration handler at a concrete state and
request performs three ORM operations (the e-mail lookup, the insert
commit, the refresh), not exactly one. -/
theorem handler_single_op_counterexample :
    ¬ ((ops_ep_create_user exampleDB
        { email := "carol@example.com", password := "pw" }).length = 1) := by
  decide

/-- C8 (amended): every request handler performs a fixed, handler-specific
sequence of at most three ORM operations, of which at most one is a
mutation; the purely reading handlers (login, contact list, single
contact, upcoming birthdays) and the rate-limited contact creation issue
exactly the sequences shown. -/
theorem handler_ops_bounded (db : DB) (user_id contact_id : Nat) (cu : User)
    (uc : UserCreate) (code username : String) :
    ((ops_ep_update_avatar db user_id cu).length ≤ 3
      ∧ (ops_ep_update_avatar db user_id cu).countP
          (fun o => o == DBOp.mutation) ≤ 1)
    ∧ ((ops_ep_verify_email db code).length ≤ 3
      ∧ (ops_ep_verify_email db code).countP (fun o => o == DBOp.mutation) ≤ 1)
    ∧ ((ops_ep_create_user db uc).length ≤ 3
      ∧ (ops_ep_create_user db uc).countP (fun o => o == DBOp.mutation) ≤ 1)
    ∧ ops_ep_login db username = [DBOp.query]
    ∧ ops_ep_create_contact = [DBOp.mutation, DBOp.query]
    ∧ ops_ep_read_contacts = [DBOp.query]
    ∧ ops_ep_read_contact = [DBOp.query]
    ∧ ((ops_ep_update_contact db contact_id user_id).length ≤ 3
      ∧ (ops_ep_update_contact db contact_id user_id).countP
          (fun o => o == DBOp.mutation) ≤ 1)
    ∧ ((ops_ep_delete_contact db contact_id user_id).length ≤ 3
      ∧ (ops_ep_delete_contact db contact_id user_id).countP
          (fun o => o == DBOp.mutation) ≤ 1)
    ∧ ops_ep_upcoming_birthdays = [DBOp.query] := by
  refine ⟨?_, ?_, ?_, rfl, rfl, rfl, rfl, ?_, ?_, rfl⟩
  · by_cases h : user_id ≠ cu.id
    · simp only [ops_ep_update_avatar, if_pos h]
      decide
    · cases hf : db.users.find? (fun u => u.id == user_id) <;>
        simp only [ops_ep_update_avatar, if_neg h, hf] <;> decide
  · cases hf : db.users.find? (codeMatches code) <;>
      simp only [ops_ep_verify_email, hf] <;> decide
  · cases hf : get_user_by_email db uc.email <;>
      simp only [ops_ep_create_user, hf] <;> decide
  · cases hf : get_contact db contact_id user_id <;>
      simp only [ops_ep_update_contact, hf] <;> decide
  · cases hf : get_contact db contact_id user_id <;>
      simp only [ops_ep_delete_contact, hf] <;> decide

end ContactsAPI
